import Mathlib

/-
Verification of the Workflow MCP server (custom-mcp-server/server.js).

The development is a shallow embedding of the server's pure request/response
logic.  File-system state (the workflows directory and the credentials file)
is made explicit: the workflows directory is a list of (filename, content)
pairs, and the credentials file is a value of an explicit sum type (absent /
unparseable / parsed).  JavaScript-specific value semantics that the source
relies on (truthiness of strings, `undefined` coercing to the string
"undefined" in templates and property keys, `a || b` selection) are modelled
by small helper functions.

Asynchronous operations in the source are sequential (each handler awaits
every call), so they are embedded as pure functions; a thrown JS Error is
`Except.error msg` carrying the error's message string.  `console.error`
logging is a side channel with no effect on results and is not modelled.

The recorder module (`./tools/workflow-recorder.js`) is imported by server.js
but its source is not part of the repository snapshot; its operations are
modelled from the specification (each such definition is marked
"Modelled from the spec:" in its doc comment).
-/

namespace WorkflowMcp

/-! ## JavaScript value helpers -/

/-- JS truthiness of a possibly-undefined string: `undefined` and `""` are
falsy, every other string is truthy. -/
def truthy : Option String → Bool
  | some s => s != ""
  | none => false

/-- JS `a || b` on possibly-undefined strings: yields `a` when truthy,
otherwise `b`. -/
def jsOr (a b : Option String) : Option String :=
  if truthy a then a else b

/-- Interpolation of a possibly-undefined string into a template (and its use
as a property key): `undefined` renders as the string "undefined". -/
def jsStr : Option String → String
  | some s => s
  | none => "undefined"

/-- JS `a || d` where `d` is a string literal default (e.g.
`notes || 'N/A'`). -/
def jsOrD (a : Option String) (d : String) : String :=
  if truthy a then jsStr a else d

/-- Drop the first occurrence of `pat` from a character list, as JS
`String.prototype.replace` with a string pattern and empty replacement. -/
def dropFirstOcc (pat : List Char) : List Char → List Char
  | [] => []
  | c :: rest =>
    if pat.isPrefixOf (c :: rest) then (c :: rest).drop pat.length
    else c :: dropFirstOcc pat rest

/-- JS `s.endsWith(suffix)`, computed on the character lists (the strings in
play are ASCII, where this agrees with the JS code-unit definition). -/
def strEndsWith (f suffix : String) : Bool :=
  suffix.data.isSuffixOf f.data

/-- JS `file.replace(".json", "")`: removes the first occurrence of ".json". -/
def stripJsonExt (f : String) : String :=
  String.mk (dropFirstOcc (String.data (".json")) f.data)

/-! ## Workflow document model (persisted representation, spec section 6) -/

/-- One persisted workflow step: `{step, tool, description, arguments, note?}`.
`arguments` is an operation-specific JSON object, modelled as a flat
key/value list. -/
structure Step where
  step : Nat
  tool : String
  description : String
  arguments : List (String × String)
  note : Option String
deriving DecidableEq, Repr

/-- A persisted workflow document. -/
structure Workflow where
  name : String
  description : String
  steps : List Step
  successCriteria : List String
  notes : List String
deriving DecidableEq, Repr

/-- Content of one file in the workflows directory: either it parses as a
workflow document, or `JSON.parse` fails with the given message. -/
inductive FileContent where
  | valid (w : Workflow)
  | corrupt (errMsg : String)
deriving DecidableEq, Repr

/-- The workflows directory: filenames (with extension) paired with their
content, in directory-listing order. -/
abbrev Store := List (String × FileContent)

/-- Read one file of the directory by exact name. -/
def getFile : Store → String → Option FileContent
  | [], _ => none
  | (g, c) :: rest, f => if g = f then some c else getFile rest f

/-- Write one file: overwrite an existing entry in place, else append. -/
def setFile : Store → String → FileContent → Store
  | [], f, c => [(f, c)]
  | (g, d) :: rest, f, c =>
    if g = f then (f, c) :: rest else (g, d) :: setFile rest f c

theorem getFile_setFile (store : Store) (f : String) (c : FileContent) :
    getFile (setFile store f c) f = some c := by
  induction store with
  | nil => simp [setFile, getFile]
  | cons p rest ih =>
    by_cases h : p.1 = f
    · simp [setFile, getFile, h]
    · simp [setFile, getFile, h, ih]

/-! ## Credentials (credentials.json collaborator, server.js lines 30-213) -/

/-- One entry of credentials.json; every field may be absent. -/
structure Credential where
  username : Option String
  email : Option String
  password : Option String
  loginUrl : Option String
  notes : Option String
deriving DecidableEq, Repr

/-- Parsed credentials.json: site keys in insertion order (JS `Object.keys`
order for string keys). -/
abbrev CredStore := List (String × Credential)

/-- State of the credentials file as seen by `readFile` + `JSON.parse`:
missing (ENOENT, carrying the fs error message), unparseable (carrying the
parse error message), or parsed. -/
inductive CredFile where
  | absent (fsMsg : String)
  | corrupt (errMsg : String)
  | present (creds : CredStore)
deriving DecidableEq, Repr

/-- Path of the credentials file.  In the source it is
`join(__dirname, 'credentials.json')`; the host-dependent directory prefix is
irrelevant to every claim, so the file name stands for the path. -/
def CREDENTIALS_FILE : String := "credentials.json"

/-- Error message for an unknown site key (server.js lines 37-40 and 91-94). -/
def noCredsMsg (site : String) (creds : CredStore) : String :=
  "No credentials found for: " ++ site ++ "\n\n" ++
  "Available sites:\n" ++
  String.intercalate ("\n") (creds.map (fun p => "  - " ++ p.1))

/-- Error message when credentials.json is missing (server.js lines 66-77). -/
def credentialsFileNotFoundMsg : String :=
  "Credentials file not found at: " ++ CREDENTIALS_FILE ++ "\n\n" ++
  "Create credentials.json with format:\n" ++
  "\x7b\n" ++
  "  \"site-name\": \x7b\n" ++
  "    \"username\": \"user@example.com\",  // or \"email\": \"user@example.com\"\n" ++
  "    \"password\": \"password\",\n" ++
  "    \"loginUrl\": \"https://example.com/login\",\n" ++
  "    \"notes\": \"Optional notes\"\n" ++
  "  \x7d\n" ++
  "\x7d"

/-- Error message when a credential entry has neither username nor email
(server.js lines 103-113). -/
def noUsernameMsg (site : String) : String :=
  "No username/email found in credentials for " ++ site ++ ".\n\n" ++
  "Please add \"username\" or \"email\" to credentials.json:\n" ++
  "\x7b\n" ++
  "  \"" ++ site ++ "\": \x7b\n" ++
  "    \"username\": \"...\",  // or \"email\": \"...\"\n" ++
  "    \"password\": \"...\",\n" ++
  "    \"loginUrl\": \"https://www." ++ site ++ ".com/login\"\n" ++
  "  \x7d\n" ++
  "\x7d"

/-- Error message when a credential entry has no loginUrl (server.js lines
117-127). -/
def noLoginUrlMsg (site : String) : String :=
  "No loginUrl configured for " ++ site ++ ".\n\n" ++
  "Please add \"loginUrl\" to credentials.json:\n" ++
  "\x7b\n" ++
  "  \"" ++ site ++ "\": \x7b\n" ++
  "    \"username\": \"...\",\n" ++
  "    \"password\": \"...\",\n" ++
  "    \"loginUrl\": \"https://www." ++ site ++ ".com/login\"\n" ++
  "  \x7d\n" ++
  "\x7d"

/-- Success text of get_login_credentials (server.js lines 52-61). -/
def credentialsText (site fieldLabel username password notes : String) : String :=
  "# Login Credentials: " ++ site ++ "\n\n" ++
  "**" ++ fieldLabel ++ ":** " ++ username ++ "\n" ++
  "**Password:** " ++ password ++ "\n" ++
  "**Notes:** " ++ notes ++ "\n\n" ++
  "**Usage:**\n" ++
  "1. Navigate to login page\n" ++
  "2. Use browser_type to enter username/email: " ++ username ++ "\n" ++
  "3. Use browser_type to enter password\n" ++
  "4. Click submit/login button\n\n" ++
  "**Security Note:** Keep credentials.json private and never commit to git!"

/-- getLoginCredentials (server.js lines 30-81).  The whole body sits in one
try; the catch rethrows the big ENOENT message when the file is missing and
otherwise wraps the error (including the inner unknown-site throw, whose
Error has no `code`) as "Failed to get credentials: <message>". -/
def getLoginCredentials (credFile : CredFile) (site : Option String) :
    Except String String :=
  match credFile with
  | .absent _ => .error credentialsFileNotFoundMsg
  | .corrupt m => .error ("Failed to get credentials: " ++ m)
  | .present creds =>
    let key := jsStr site
    match creds.lookup key with
    | none => .error ("Failed to get credentials: " ++ noCredsMsg key creds)
    | some c =>
      let username := jsStr (jsOr c.username c.email)
      let fieldLabel := if truthy c.username then "Username" else "Email"
      .ok (credentialsText key fieldLabel username (jsStr c.password)
            (jsOrD c.notes ("N/A")))

/-! Success text of login_to_site (server.js lines 135-207), split at the
redacted-password line and at the Step 4 password block; the concatenation of
the parts below, in order, is the source template verbatim. -/

/-- Lines 135-137 of the login text; `site` is interpolated through
`toUpperCase()` (the site keys in play are ASCII, where Lean's
`String.toUpper` agrees with JS `toUpperCase`). -/
def loginHeader (site username : String) : String :=
  "# Login to " ++ site.toUpper ++ "\n\n" ++
  "## Credentials Retrieved:\n" ++
  "- Username/Email: " ++ username ++ "\n"

/-- Line 138: the credentials summary labels the password as redacted. -/
def passwordRedactedLine : String :=
  "- Password: [REDACTED]\n"

/-- Lines 139-174: login URL line, instructions intro, Steps 1-3. -/
def loginMiddle (username loginUrl : String) : String :=
  "- Login URL: " ++ loginUrl ++ "\n\n" ++
  "## Login Instructions:\n" ++
  "Follow these steps to complete login:\n\n" ++
  "**Important:** Look for fields labeled \"username\", \"email\", \"user\", or \"login\" in the snapshot.\n" ++
  "Use the provided credentials regardless of the field label.\n\n" ++
  "### Step 1: Navigate to Login Page\n" ++
  "```json\n" ++
  "\x7b\n" ++
  "  \"tool\": \"browser_navigate\",\n" ++
  "  \"arguments\": \x7b\n" ++
  "    \"url\": \"" ++ loginUrl ++ "\"\n" ++
  "  \x7d\n" ++
  "\x7d\n" ++
  "```\n\n" ++
  "### Step 2: Take Snapshot\n" ++
  "```json\n" ++
  "\x7b\n" ++
  "  \"tool\": \"browser_snapshot\",\n" ++
  "  \"arguments\": \x7b\x7d\n" ++
  "\x7d\n" ++
  "```\n" ++
  "Find refs for username/email textbox, password textbox, and login/signin button.\n\n" ++
  "### Step 3: Enter Username/Email\n" ++
  "Use the username: " ++ username ++ "\n" ++
  "```json\n" ++
  "\x7b\n" ++
  "  \"tool\": \"browser_type\",\n" ++
  "  \"arguments\": \x7b\n" ++
  "    \"element\": \"Username/Email textbox\",\n" ++
  "    \"ref\": \"\x7b\x7bUSERNAME_EMAIL_REF\x7d\x7d\",\n" ++
  "    \"text\": \"" ++ username ++ "\",\n" ++
  "    \"submit\": false\n" ++
  "  \x7d\n" ++
  "\x7d\n" ++
  "```\n" ++
  "Note: The field might be labeled as \"username\", \"email\", \"user\", or \"login\" - use whichever appears in the snapshot.\n\n"

/-- Lines 175-183, up to the interpolation point of the password. -/
def step4Pre : String :=
  "### Step 4: Enter Password\n" ++
  "```json\n" ++
  "\x7b\n" ++
  "  \"tool\": \"browser_type\",\n" ++
  "  \"arguments\": \x7b\n" ++
  "    \"element\": \"Password textbox\",\n" ++
  "    \"ref\": \"\x7b\x7bPASSWORD_REF\x7d\x7d\",\n" ++
  "    \"text\": \""

/-- Lines 183-186, from just after the password interpolation. -/
def step4Post : String :=
  "\",\n" ++
  "    \"submit\": false\n" ++
  "  \x7d\n" ++
  "\x7d\n" ++
  "```\n\n"

/-- The Step 4 block: the plaintext password is interpolated verbatim into
the browser_type instruction (server.js line 182). -/
def step4PasswordBlock (password : String) : String :=
  step4Pre ++ password ++ step4Post

/-- Lines 187-207: Steps 5-6 and the footer. -/
def loginTail : String :=
  "### Step 5: Click Login Button\n" ++
  "```json\n" ++
  "\x7b\n" ++
  "  \"tool\": \"browser_click\",\n" ++
  "  \"arguments\": \x7b\n" ++
  "    \"element\": \"Sign in button\",\n" ++
  "    \"ref\": \"\x7b\x7bLOGIN_BUTTON_REF\x7d\x7d\"\n" ++
  "  \x7d\n" ++
  "\x7d\n" ++
  "```\n\n" ++
  "### Step 6: Verify Login Success\n" ++
  "```json\n" ++
  "\x7b\n" ++
  "  \"tool\": \"browser_snapshot\",\n" ++
  "  \"arguments\": \x7b\x7d\n" ++
  "\x7d\n" ++
  "```\n" ++
  "Check the snapshot to confirm you\u0027re logged in (look for user name, account menu, or \"Sign Out\" link).\n\n" ++
  "---\n\n" ++
  "**Note:** Replace \x7b\x7bEMAIL_REF\x7d\x7d, \x7b\x7bPASSWORD_REF\x7d\x7d, and \x7b\x7bLOGIN_BUTTON_REF\x7d\x7d with actual refs from Step 2 snapshot.\n\n" ++
  "**Security:** Credentials are retrieved from secure storage. Never log passwords."

/-- The whole login_to_site success text (server.js lines 135-207). -/
def loginText (site username password loginUrl : String) : String :=
  loginHeader site username ++
  passwordRedactedLine ++
  loginMiddle username loginUrl ++
  step4PasswordBlock password ++
  loginTail

/-- loginToSite (server.js lines 83-213).  The whole body sits in one try
whose catch wraps every error - fs errors, the parse error, and the three
inner throws - as "Failed to prepare login: <message>". -/
def loginToSite (credFile : CredFile) (site : Option String) :
    Except String String :=
  match credFile with
  | .absent fsMsg => .error ("Failed to prepare login: " ++ fsMsg)
  | .corrupt m => .error ("Failed to prepare login: " ++ m)
  | .present creds =>
    let key := jsStr site
    match creds.lookup key with
    | none => .error ("Failed to prepare login: " ++ noCredsMsg key creds)
    | some c =>
      let username := jsOr c.username c.email
      if truthy username = false then
        .error ("Failed to prepare login: " ++ noUsernameMsg key)
      else if truthy c.loginUrl = false then
        .error ("Failed to prepare login: " ++ noLoginUrlMsg key)
      else
        .ok (loginText key (jsStr username) (jsStr c.password)
              (jsStr c.loginUrl))

/-! ## Workflow store operations (server.js lines 219-322) -/

/-- The detailed not-found message built inside the nested try block
(server.js lines 259-264): the `.json` files of the directory, each with the
extension stripped.  The source throws this message inside that same try
block, so its own bare catch (line 265) swallows it and rethrows the plain
form - this value never reaches the caller.  Defined here to analyse the
discarded payload. -/
def fetchNotFoundDetail (store : Store) (workflowName : String) : String :=
  "Workflow not found: " ++ workflowName ++ "\n\n" ++
  "Available workflows:\n" ++
  String.intercalate ("\n")
    (((store.map Prod.fst).filter (fun f => strEndsWith f (".json"))).map
      (fun f => "  - " ++ stripJsonExt f))

/-- workflowFetch (server.js lines 219-271).  Reads `<name>.json` and parses
it.  On ENOENT the nested try builds the detailed message and throws it, but
that throw is caught by the bare catch on line 265, which replaces it with
the plain "Workflow not found" message.  On a parse failure (the error has no
`code`) the outer catch wraps the message.  The success branch renders the
parsed document to markdown; the document itself is the returned payload
modelled here. -/
def workflowFetch (store : Store) (workflowName : String) :
    Except String Workflow :=
  match getFile store (workflowName ++ ".json") with
  | some (.valid w) => .ok w
  | some (.corrupt m) => .error ("Failed to fetch workflow: " ++ m)
  | none => .error ("Workflow not found: " ++ workflowName)

/-- One entry of the workflow_list result (server.js lines 288-300). -/
structure WorkflowListEntry where
  name : String
  description : String
  steps : Nat
  file : String
deriving DecidableEq, Repr

/-- The entry built for one directory file: a document that parses yields its
own `name`/`description` and its step count; a document that fails to parse
(or lacks the expected fields) yields the degraded entry of lines 295-300. -/
def listEntry (f : String) (c : FileContent) : WorkflowListEntry :=
  match c with
  | .valid w => ⟨w.name, w.description, w.steps.length, f⟩
  | .corrupt _ => ⟨stripJsonExt f, "Error loading workflow", 0, f⟩

/-- workflowList (server.js lines 277-322): lists the `.json` files of the
directory and maps each through `listEntry`; a per-file failure is absorbed
by the per-file catch, so listing itself only fails if `readdir` fails (the
directory is part of the source tree, so the embedding reads it totally). -/
def workflowList (store : Store) : Except String (List WorkflowListEntry) :=
  .ok ((store.filter (fun p => strEndsWith p.1 (".json"))).map
        (fun p => listEntry p.1 p.2))

/-- Modelled from the spec: the Workflow Store save operation (spec section
4.3; in the source it lives in `recorder.saveWorkflow` of the missing
`tools/workflow-recorder.js`).  Serializes the workflow under its name with a
`.json` extension, overwriting any existing document of the same name. -/
def storeSave (store : Store) (w : Workflow) : Store :=
  setFile store (w.name ++ ".json") (.valid w)

/-! ## Recorder (spec section 4.2; `tools/workflow-recorder.js` is imported
by server.js but absent from the repository snapshot, so the recorder
operations are modelled from the spec) -/

/-- Stable selector descriptor (spec section 3). -/
structure SelectorDescriptor where
  role : String
  accessibleName : String
  textHint : Option String
  ordinal : Nat
deriving DecidableEq, Repr

/-- One node of the snapshot index (spec section 3). -/
structure SnapNode where
  role : String
  accessibleName : String
  textHint : Option String
  ordinal : Nat
deriving DecidableEq, Repr

/-- Modelled from the spec: the Snapshot Index, mapping ephemeral reference
ids to node descriptors (spec section 3).  The index is taken as already
built from the accessibility-tree snapshot. -/
abbrev Snapshot := List (String × SnapNode)

/-- Modelled from the spec: the recording session (spec section 3), an
idle/active tagged variant; the active arm holds the workflow name, the
ordered step sequence, the current snapshot index, and whether a first
snapshot-checkpoint has been recorded. -/
inductive RecorderState where
  | idle
  | active (name : String) (steps : List Step) (snapIndex : Snapshot)
      (hadSnapshot : Bool)
deriving DecidableEq, Repr

/-- Modelled from the spec: `recorder.isRecording()` - true exactly in the
active state. -/
def isRecording : RecorderState → Bool
  | .idle => false
  | .active _ _ _ _ => true

/-- Modelled from the spec: error message of `AlreadyRecordingError`. -/
def alreadyRecordingErrMsg : String :=
  "AlreadyRecordingError: a recording session is already active"

/-- Modelled from the spec: error message of `NotRecordingError`. -/
def notRecordingErrMsg : String :=
  "NotRecordingError: no recording session is active"

/-- Modelled from the spec: error message of `EmptyRecordingError`. -/
def emptyRecordingErrMsg : String :=
  "EmptyRecordingError: no steps were recorded"

/-- Modelled from the spec: `recorder.startRecording(name)` (spec section
4.2 `start`): fails with AlreadyRecordingError if a session is active,
otherwise transitions idle to active with an empty step sequence. -/
def startRecording (st : RecorderState) (name : String) :
    Except String RecorderState :=
  match st with
  | .idle => .ok (.active name [] [] false)
  | .active _ _ _ _ => .error alreadyRecordingErrMsg

/-- Modelled from the spec: the Selector Generalizer (spec section 4.1):
looks the ephemeral reference up in the snapshot index and fails with
UnresolvedReferenceError when it is absent. -/
def generalizeRef (ref : String) (snapIndex : Snapshot) :
    Except String SelectorDescriptor :=
  match snapIndex.lookup ref with
  | none => .error ("UnresolvedReferenceError: " ++ ref)
  | some n => .ok ⟨n.role, n.accessibleName, n.textHint, n.ordinal⟩

/-- Modelled from the spec: the arguments recorded for a generalized target. -/
def selectorArgs (d : SelectorDescriptor) : List (String × String) :=
  [("role", d.role), ("accessibleName", d.accessibleName),
   ("textHint", jsStr d.textHint), ("ordinal", toString d.ordinal)]

/-- Modelled from the spec: `recorder.recordNavigate(url)` - no-op if idle,
otherwise appends a navigate step with the next sequential index. -/
def recordNavigate (st : RecorderState) (url : String) :
    Except String RecorderState :=
  match st with
  | .idle => .ok .idle
  | .active name steps snap had =>
    .ok (.active name
      (steps ++ [⟨steps.length + 1, "navigate", "Navigate to " ++ url,
        [("url", url)], none⟩]) snap had)

/-- Modelled from the spec: `recorder.recordClick(element, ref)` - no-op if
idle, otherwise resolves `ref` against the snapshot index and appends a click
step. -/
def recordClick (st : RecorderState) (element ref : String) :
    Except String RecorderState :=
  match st with
  | .idle => .ok .idle
  | .active name steps snap had =>
    match generalizeRef ref snap with
    | .error m => .error m
    | .ok d =>
      .ok (.active name
        (steps ++ [⟨steps.length + 1, "click", "Click " ++ element,
          ("element", element) :: selectorArgs d, none⟩]) snap had)

/-- Modelled from the spec: `recorder.recordType(element, ref, text, submit)`
- no-op if idle, otherwise resolves `ref` and appends a type step. -/
def recordType (st : RecorderState) (element ref txt : String)
    (submit : Bool) : Except String RecorderState :=
  match st with
  | .idle => .ok .idle
  | .active name steps snap had =>
    match generalizeRef ref snap with
    | .error m => .error m
    | .ok d =>
      .ok (.active name
        (steps ++ [⟨steps.length + 1, "type", "Type into " ++ element,
          ("element", element) :: ("text", txt) ::
            ("submit", if submit then "true" else "false") :: selectorArgs d,
          none⟩]) snap had)

/-- Modelled from the spec: `recorder.recordSelectOption(element, ref,
values)` - no-op if idle, otherwise resolves `ref` and appends a
select_option step. -/
def recordSelectOption (st : RecorderState) (element ref : String)
    (values : List String) : Except String RecorderState :=
  match st with
  | .idle => .ok .idle
  | .active name steps snap had =>
    match generalizeRef ref snap with
    | .error m => .error m
    | .ok d =>
      .ok (.active name
        (steps ++ [⟨steps.length + 1, "select_option",
          "Select option in " ++ element,
          ("element", element) ::
            ("values", String.intercalate (",") values) :: selectorArgs d,
          none⟩]) snap had)

/-- Modelled from the spec: `recorder.recordSnapshot(snapshot)` (spec section
4.2) - no-op if idle; otherwise replaces the session's snapshot index and
appends no step, except the very first snapshot of a session, which is
recorded as a snapshot-checkpoint step. -/
def recordSnapshot (st : RecorderState) (snapNew : Snapshot) :
    Except String RecorderState :=
  match st with
  | .idle => .ok .idle
  | .active name steps _ had =>
    if had then .ok (.active name steps snapNew true)
    else
      .ok (.active name
        (steps ++ [⟨steps.length + 1, "snapshot-checkpoint",
          "Snapshot checkpoint", [], none⟩]) snapNew true)

/-- Modelled from the spec: `recorder.saveWorkflow(dir)` together with
`recorder.generateWorkflow()` (spec section 4.2 `stop`): fails with
NotRecordingError if idle and with EmptyRecordingError if the step sequence
is empty; otherwise builds the Workflow (description defaulted from the name,
since server.js passes no description to the recorder), persists it through
the store, transitions to idle, and reports the built workflow and the file
location. -/
def saveWorkflow (st : RecorderState) (store : Store) :
    Except String (RecorderState × Store × String × Workflow) :=
  match st with
  | .idle => .error notRecordingErrMsg
  | .active name steps _ _ =>
    if steps.isEmpty then .error emptyRecordingErrMsg
    else
      let w : Workflow :=
        { name := name, description := name, steps := steps,
          successCriteria := [], notes := [] }
      .ok (.idle, storeSave store w, name ++ ".json", w)

/-! ## Server-level recording operations (server.js lines 324-385) -/

/-- Result payload of one operation.  Every source handler returns
`{content: [{type: "text", text}]}`; payloads whose markdown rendering would
require a JSON serializer (`JSON.stringify` of the fetched or stopped
workflow) are kept structured here, the others are the rendered text. -/
inductive ToolResult where
  | text (s : String)
  | fetched (w : Workflow)
  | listing (entries : List WorkflowListEntry)
  | stopped (w : Workflow) (filePath : String)
deriving DecidableEq, Repr

/-- Success text of workflow_record_start (server.js lines 328-337). -/
def recordStartText (name : String) (description : Option String) : String :=
  "📹 **Recording Started**\n\n" ++
  "Workflow: " ++ name ++ "\n" ++
  "Description: " ++ jsOrD description ("Auto-generated workflow") ++ "\n\n" ++
  "**What happens now:**\n" ++
  "- All browser actions will be recorded\n" ++
  "- Refs will be converted to semantic selectors automatically\n" ++
  "- Use `workflow_record_stop()` when done\n\n" ++
  "**Tip:** Perform the actions you want to automate now!"

/-- Text returned by workflow_record_stop when no recording is in progress
(server.js lines 343-348): a normal success result, not a thrown error. -/
def notRecordingText : String :=
  "❌ **Not Recording**\n\nNo workflow recording in progress. Use `workflow_record_start(name)` to start."

/-- workflowRecordStart (server.js lines 324-339): calls
`recorder.startRecording(name)` - whose failure, if any, propagates - and
returns the started text.  The recorder state is threaded explicitly; on a
propagated error it is unchanged (the throw happens before any transition). -/
def workflowRecordStart (st : RecorderState) (name : String)
    (description : Option String) : Except String ToolResult × RecorderState :=
  match startRecording st name with
  | .error m => (.error m, st)
  | .ok st' => (.ok (.text (recordStartText name description)), st')

/-- workflowRecordStop (server.js lines 341-368): when
`recorder.isRecording()` is false it returns the not-recording text as a
normal result; otherwise it calls `recorder.saveWorkflow` and
`recorder.generateWorkflow` (modelled together by `saveWorkflow`), whose
failure propagates with the state and store untouched. -/
def workflowRecordStop (st : RecorderState) (store : Store) :
    Except String ToolResult × RecorderState × Store :=
  if isRecording st = false then
    (.ok (.text notRecordingText), st, store)
  else
    match saveWorkflow st store with
    | .error m => (.error m, st, store)
    | .ok (st', store', filePath, w) => (.ok (.stopped w filePath), st', store')

/-- Action-notification parameters (server.js lines 370-385). -/
structure ActionParams where
  url : Option String
  element : Option String
  ref : Option String
  text : Option String
  submit : Option Bool
  values : List String
  snapshot : Snapshot
deriving DecidableEq, Repr

/-- workflowRecordAction (server.js lines 370-385): returns immediately when
`recorder.isRecording()` is false (appending no step and raising no error);
otherwise routes the action to the matching recorder operation.  The source
function performs no storage access, so the workflow store cannot be touched
by it; only the recorder state is threaded. -/
def workflowRecordAction (st : RecorderState) (action : String)
    (params : ActionParams) : Except String RecorderState :=
  if isRecording st = false then .ok st
  else if action = "navigate" then recordNavigate st (jsStr params.url)
  else if action = "click" then
    recordClick st (jsStr params.element) (jsStr params.ref)
  else if action = "type" then
    recordType st (jsStr params.element) (jsStr params.ref)
      (jsStr params.text) (params.submit.getD false)
  else if action = "select_option" then
    recordSelectOption st (jsStr params.element) (jsStr params.ref)
      params.values
  else if action = "snapshot" then recordSnapshot st params.snapshot
  else .ok st

/-! ## Tool Dispatcher (server.js lines 410-527) -/

/-- One declared tool of the ListToolsRequestSchema handler: its name, its
description, and the property names of its input schema with the required
subset. -/
structure ToolDecl where
  name : String
  description : String
  properties : List String
  required : List String
deriving DecidableEq, Repr

/-- The catalog returned by the ListToolsRequestSchema handler (server.js
lines 410-493). -/
def toolCatalog : List ToolDecl :=
  [⟨"login_to_site",
    "Get complete login instructions with credentials for a specific website. Returns step-by-step guide to navigate, enter credentials, and verify login success. This is a modular login helper that workflows can call instead of implementing login steps manually.",
    ["site"], ["site"]⟩,
   ⟨"get_login_credentials",
    "Retrieve stored login credentials for a specific website. Returns email and password that can be used with browser automation tools.",
    ["site"], ["site"]⟩,
   ⟨"workflow_fetch",
    "Fetch a saved automation workflow with detailed step-by-step instructions. Returns the workflow definition that can be executed using Playwright MCP tools.",
    ["workflowName"], ["workflowName"]⟩,
   ⟨"workflow_list",
    "List all available saved workflows",
    [], []⟩,
   ⟨"workflow_record_start",
    "Start recording a new workflow. All subsequent browser actions will be captured and converted to semantic selectors automatically.",
    ["name", "description"], ["name"]⟩,
   ⟨"workflow_record_stop",
    "Stop recording the current workflow and save it. Returns the generated workflow with semantic selectors.",
    [], []⟩]

/-- The operation names exposed by listOperations. -/
def listToolNames : List String :=
  toolCatalog.map (fun t => t.name)

/-- The `arguments` object of a call request; each property may be absent. -/
structure Args where
  site : Option String
  workflowName : Option String
  name : Option String
  description : Option String
deriving DecidableEq, Repr

/-- The CallToolRequestSchema handler (server.js lines 499-527): routes the
named tool to its handler and throws "Unknown tool" for any other name.  The
handler body contains no try/catch, so an error raised by an operation
propagates out of the handler unchanged (as the `.error` component); the
recorder state and the store are threaded explicitly. -/
def callTool (credFile : CredFile) (st : RecorderState) (store : Store)
    (name : String) (args : Args) :
    Except String ToolResult × RecorderState × Store :=
  if name = "login_to_site" then
    ((loginToSite credFile args.site).map ToolResult.text, st, store)
  else if name = "get_login_credentials" then
    ((getLoginCredentials credFile args.site).map ToolResult.text, st, store)
  else if name = "workflow_fetch" then
    ((workflowFetch store (jsStr args.workflowName)).map ToolResult.fetched,
      st, store)
  else if name = "workflow_list" then
    ((workflowList store).map ToolResult.listing, st, store)
  else if name = "workflow_record_start" then
    let p := workflowRecordStart st (jsStr args.name) args.description
    (p.1, p.2, store)
  else if name = "workflow_record_stop" then
    workflowRecordStop st store
  else
    (.error ("Unknown tool: " ++ name), st, store)

/-! ## Claims -/

/-- C2: stop() (workflow_record_stop) immediately after start() with zero
intervening record calls fails with EmptyRecordingError, and no Workflow
document is persisted to the store by that call: starting from idle yields an
active session with an empty step sequence, and stopping it returns the
EmptyRecordingError message with the store unchanged. -/
theorem c2_stop_after_start_empty_fails (name : String)
    (description : Option String) (store : Store) :
    (workflowRecordStart RecorderState.idle name description).2
        = RecorderState.active name [] [] false
  ∧ workflowRecordStop (RecorderState.active name [] [] false) store
        = (Except.error emptyRecordingErrMsg,
           RecorderState.active name [] [] false, store) := by
  constructor
  · rfl
  · simp [workflowRecordStop, isRecording, saveWorkflow]

/-- C5 counterexample: calling workflow_record_stop while idle does not fail
at all - it returns a normal success result (server.js lines 342-349), so
the claim that it fails with NotRecordingError is false at the concrete idle
state with an empty store. -/
theorem c5_stop_idle_counterexample :
    workflowRecordStop RecorderState.idle []
        = (Except.ok (ToolResult.text notRecordingText), RecorderState.idle, [])
  ∧ ∀ m, (workflowRecordStop RecorderState.idle []).1 ≠ Except.error m := by
  refine ⟨rfl, ?_⟩
  intro m h
  simp [workflowRecordStop, isRecording] at h

/-- C5 (amended): calling stop() (workflow_record_stop) while no recording
session is active raises no error; it returns a successful result whose text
is the fixed "Not Recording" guidance message, and leaves the recorder state
and the store unchanged. -/
theorem c5_stop_idle_returns_message (store : Store) :
    workflowRecordStop RecorderState.idle store
      = (Except.ok (ToolResult.text notRecordingText),
         RecorderState.idle, store) := by
  simp [workflowRecordStop, isRecording]

/-- C6: calling start() (workflow_record_start) while a recording session is
already active fails with AlreadyRecordingError, and the existing session -
its name and its recorded step sequence - is unchanged by the failed call. -/
theorem c6_start_while_active_fails_state_unchanged (name : String)
    (steps : List Step) (snap : Snapshot) (had : Bool) (newName : String)
    (description : Option String) :
    workflowRecordStart (RecorderState.active name steps snap had) newName
        description
      = (Except.error alreadyRecordingErrMsg,
         RecorderState.active name steps snap had) := by
  rfl

/-- C8: for every Workflow document, save(workflow) followed by
fetch(workflow.name) on the resulting store state returns exactly the
document saved - in particular its name, steps and description are
identical. -/
theorem c8_save_fetch_roundtrip (store : Store) (w : Workflow) :
    workflowFetch (storeSave store w) w.name = Except.ok w := by
  unfold workflowFetch storeSave
  rw [getFile_setFile]

/-- C9: every action notification (navigate, click, type, select_option,
snapshot) arriving while no recording session is active is a no-op: the
handler returns with no error and the recorder state still idle (hence no
step appended); the source function performs no storage access, so the
workflow store is untouched. -/
theorem c9_record_noop_when_idle (action : String) (params : ActionParams) :
    workflowRecordAction RecorderState.idle action params
      = Except.ok RecorderState.idle := by
  rfl

/-- C7: for every storage state containing exactly one document that fails
to parse and one valid document (in either order), list() returns exactly two
entries: the corrupt one degraded to description "Error loading workflow"
with step count 0, the valid one with step count equal to the length of its
stored steps array; the listing never aborts (the result is a success). -/
theorem c7_list_tolerates_corrupt_entry (f1 f2 m : String) (w : Workflow)
    (h1 : strEndsWith f1 (".json") = true) (h2 : strEndsWith f2 (".json") = true) :
    workflowList [(f1, FileContent.corrupt m), (f2, FileContent.valid w)]
        = Except.ok
            [⟨stripJsonExt f1, "Error loading workflow", 0, f1⟩,
             ⟨w.name, w.description, w.steps.length, f2⟩]
  ∧ workflowList [(f2, FileContent.valid w), (f1, FileContent.corrupt m)]
        = Except.ok
            [⟨w.name, w.description, w.steps.length, f2⟩,
             ⟨stripJsonExt f1, "Error loading workflow", 0, f1⟩] := by
  constructor
  · simp [workflowList, listEntry, h1, h2]
  · simp [workflowList, listEntry, h1, h2]

/-- C7 witness: the theorem applied to the concrete store containing the
unparseable file "bad.json" and the valid one-step document "good.json". -/
theorem c7_list_tolerates_corrupt_entry_witness :
    workflowList
        [("bad.json", FileContent.corrupt ("Unexpected token")),
         ("good.json", FileContent.valid
            ⟨"good", "a good workflow",
             [⟨1, "browser_navigate", "go", [("url", "https://x.test")], none⟩],
             [], []⟩)]
      = Except.ok
          [⟨stripJsonExt ("bad.json"), "Error loading workflow", 0, "bad.json"⟩,
           ⟨"good", "a good workflow", 1, "good.json"⟩] :=
  (c7_list_tolerates_corrupt_entry ("bad.json") ("good.json")
    ("Unexpected token")
    ⟨"good", "a good workflow",
     [⟨1, "browser_navigate", "go", [("url", "https://x.test")], none⟩],
     [], []⟩ (by decide) (by decide)).1

/-- C4: call(name, args) fails with the unknown-operation error exactly when
`name` is outside the declared catalog, and each name of the catalog returned
by the ListTools handler routes to its operation handler: the catalog is
exactly the set of names `call` dispatches. -/
theorem c4_catalog_matches_dispatch (credFile : CredFile)
    (st : RecorderState) (store : Store) (args : Args) :
    listToolNames
        = ["login_to_site", "get_login_credentials", "workflow_fetch",
           "workflow_list", "workflow_record_start", "workflow_record_stop"]
  ∧ (∀ name, name ∉ listToolNames →
        callTool credFile st store name args
          = (Except.error ("Unknown tool: " ++ name), st, store))
  ∧ callTool credFile st store "login_to_site" args
        = ((loginToSite credFile args.site).map ToolResult.text, st, store)
  ∧ callTool credFile st store "get_login_credentials" args
        = ((getLoginCredentials credFile args.site).map ToolResult.text,
           st, store)
  ∧ callTool credFile st store "workflow_fetch" args
        = ((workflowFetch store (jsStr args.workflowName)).map
            ToolResult.fetched, st, store)
  ∧ callTool credFile st store "workflow_list" args
        = ((workflowList store).map ToolResult.listing, st, store)
  ∧ callTool credFile st store "workflow_record_start" args
        = ((workflowRecordStart st (jsStr args.name) args.description).1,
           (workflowRecordStart st (jsStr args.name) args.description).2,
           store)
  ∧ callTool credFile st store "workflow_record_stop" args
        = workflowRecordStop st store := by
  refine ⟨rfl, ?_, rfl, rfl, rfl, rfl, rfl, rfl⟩
  intro name hn
  simp only [listToolNames, toolCatalog, List.map, List.mem_cons,
    List.not_mem_nil, or_false, not_or] at hn
  obtain ⟨n1, n2, n3, n4, n5, n6⟩ := hn
  simp [callTool, n1, n2, n3, n4, n5, n6]

/-- C4 witness: the theorem applied at a concrete undeclared name shows the
unknown-operation failure there. -/
theorem c4_catalog_matches_dispatch_witness :
    callTool (CredFile.present []) RecorderState.idle [] "bogus_tool"
        ⟨none, none, none, none⟩
      = (Except.error ("Unknown tool: " ++ "bogus_tool"),
         RecorderState.idle, []) :=
  (c4_catalog_matches_dispatch (CredFile.present []) RecorderState.idle []
    ⟨none, none, none, none⟩).2.1 "bogus_tool" (by decide)

/-- A one-step workflow document whose internal name field ("b") differs
from its file name ("a.json"); used to exhibit the fetch-error payload
behaviour. -/
def c3Workflow : Workflow :=
  ⟨"b", "d", [⟨1, "browser_navigate", "go", [("url", "https://x.test")], none⟩],
   [], []⟩

/-- A store holding only `c3Workflow` under the file name "a.json". -/
def c3Store : Store := [("a.json", FileContent.valid c3Workflow)]

/-- C3 (code bug): fetching a nonexistent workflow surfaces only the plain
"Workflow not found" message.  The detailed message enumerating the stored
names is built (second conjunct computes it), but the source throws it inside
the same try block whose bare catch swallows it, so the surfaced error does
not carry the enumeration (fourth conjunct); moreover even the discarded
enumeration lists file names ("a") while list() reports the documents'
internal name fields ("b") (third conjunct). -/
theorem c3_fetch_error_lacks_enumeration :
    workflowFetch c3Store "nonexistent"
        = Except.error ("Workflow not found: nonexistent")
  ∧ fetchNotFoundDetail c3Store "nonexistent"
        = "Workflow not found: nonexistent\n\nAvailable workflows:\n  - a"
  ∧ workflowList c3Store = Except.ok [⟨"b", "d", 1, "a.json"⟩]
  ∧ workflowFetch c3Store "nonexistent"
        ≠ Except.error (fetchNotFoundDetail c3Store "nonexistent") := by
  refine ⟨rfl, by decide, rfl, ?_⟩
  intro h
  rw [show workflowFetch c3Store "nonexistent"
      = Except.error ("Workflow not found: nonexistent") from rfl] at h
  exact absurd (Except.error.inj h) (by decide)

/-- C1 counterexample: at the concrete input where the invoked operation
(workflow_fetch of a missing name over an empty store) raises an error, the
dispatcher's call handler does not convert it into a result returned to the
caller: the handled call is itself the raised error, and no success result
exists - refuting the claim that every operation failure is caught at the
dispatcher boundary and returned as a structured result. -/
theorem c1_error_escapes_counterexample :
    workflowFetch ([] : Store) "ghost"
        = Except.error ("Workflow not found: ghost")
  ∧ (callTool (CredFile.present []) RecorderState.idle [] "workflow_fetch"
        ⟨none, some "ghost", none, none⟩).1
        = Except.error ("Workflow not found: ghost")
  ∧ ∀ r, (callTool (CredFile.present []) RecorderState.idle [] "workflow_fetch"
        ⟨none, some "ghost", none, none⟩).1 ≠ Except.ok r := by
  refine ⟨rfl, rfl, ?_⟩
  intro r h
  rw [show (callTool (CredFile.present []) RecorderState.idle []
      "workflow_fetch" ⟨none, some "ghost", none, none⟩).1
      = Except.error ("Workflow not found: ghost") from rfl] at h
  exact Except.noConfusion h

/-- C1 (amended): the call handler contains no catch; each operation handler
converts its internal failures into errors carrying human-readable messages,
and the dispatcher propagates such an error out of the handler unchanged -
as a raised error crossing the boundary, not as a structured result returned
to the caller. -/
theorem c1_errors_propagate_unconverted (credFile : CredFile)
    (st : RecorderState) (store : Store) (args : Args) (m : String) :
    (loginToSite credFile args.site = Except.error m →
      (callTool credFile st store "login_to_site" args).1 = Except.error m)
  ∧ (getLoginCredentials credFile args.site = Except.error m →
      (callTool credFile st store "get_login_credentials" args).1
        = Except.error m)
  ∧ (workflowFetch store (jsStr args.workflowName) = Except.error m →
      (callTool credFile st store "workflow_fetch" args).1 = Except.error m)
  ∧ (workflowList store = Except.error m →
      (callTool credFile st store "workflow_list" args).1 = Except.error m)
  ∧ ((workflowRecordStart st (jsStr args.name) args.description).1
        = Except.error m →
      (callTool credFile st store "workflow_record_start" args).1
        = Except.error m)
  ∧ ((workflowRecordStop st store).1 = Except.error m →
      (callTool credFile st store "workflow_record_stop" args).1
        = Except.error m) := by
  refine ⟨?_, ?_, ?_, ?_, ?_, ?_⟩ <;> intro h <;>
    simp [callTool, h, Except.map]

/-- C1 amended witness: at the empty store, workflow_fetch of "ghost" raises
the not-found error and the dispatched call carries exactly that error. -/
theorem c1_errors_propagate_unconverted_witness :
    (callTool (CredFile.present []) RecorderState.idle [] "workflow_fetch"
        ⟨none, some "ghost", none, none⟩).1
      = Except.error ("Workflow not found: ghost") :=
  (c1_errors_propagate_unconverted (CredFile.present []) RecorderState.idle []
    ⟨none, some "ghost", none, none⟩
    ("Workflow not found: ghost")).2.2.1 (by rfl)

/-- C10: for a site key present in the credentials store with a truthy
username (or email), a password and a truthy loginUrl, login_to_site
succeeds, and its returned text labels the password as "[REDACTED]" in the
credentials summary (`passwordRedactedLine`) while embedding the plaintext
password verbatim in the Step 4 typing instructions (`step4Pre ++ pw ++
step4Post`) of the very same text. -/
theorem c10_login_redacts_label_embeds_plaintext (creds : CredStore)
    (site : String) (c : Credential) (u pw url : String)
    (h1 : creds.lookup site = some c)
    (h2 : jsOr c.username c.email = some u) (h3 : u ≠ "")
    (h4 : c.password = some pw)
    (h5 : c.loginUrl = some url) (h6 : url ≠ "") :
    loginToSite (CredFile.present creds) (some site)
      = Except.ok
          (loginHeader site u ++ passwordRedactedLine ++ loginMiddle u url ++
            (step4Pre ++ pw ++ step4Post) ++ loginTail) := by
  have hu : truthy (some u) = true := by simp [truthy, h3]
  have hl : truthy (some url) = true := by simp [truthy, h6]
  simp only [loginToSite, jsStr, h1, h2, h4, h5, hu, hl]
  simp [loginText, step4PasswordBlock, jsStr]

/-- C10 witness: the theorem applied to a concrete one-site credentials
store. -/
theorem c10_login_redacts_label_embeds_plaintext_witness :
    loginToSite
        (CredFile.present
          [("rei", ⟨some "bob", none, some "hunter2",
                    some "https://www.rei.com/login", none⟩)])
        (some "rei")
      = Except.ok
          (loginHeader ("rei") ("bob") ++ passwordRedactedLine ++
            loginMiddle ("bob") ("https://www.rei.com/login") ++
            (step4Pre ++ "hunter2" ++ step4Post) ++ loginTail) :=
  c10_login_redacts_label_embeds_plaintext
    [("rei", ⟨some "bob", none, some "hunter2",
              some "https://www.rei.com/login", none⟩)]
    ("rei")
    ⟨some "bob", none, some "hunter2", some "https://www.rei.com/login", none⟩
    ("bob") ("hunter2") ("https://www.rei.com/login")
    (by rfl) (by rfl) (by decide) (by rfl) (by rfl) (by decide)

end WorkflowMcp
